import Mathlib

/- Verification development for the CPC based NCP transport layer and the
   software source match table of the SiliconLabs OpenThread fork.

   Embedded source files:
   - src/src/ncp/ncp_cpc.cpp (NcpCPC::SendToCPC, NcpCPC::HandleCPCSendDone,
     NcpCPC::HandleCPCReceiveDone)
   - src/src/posix/platform/cpc_interface.hpp (CpcInterface::SendFrame contract,
     kMaxWaitTime)
   - src/examples/platforms/utils/soft_source_match_table.c (extended address
     source match table)

   Byte values are modelled as Nat below 256; machine integer narrowing is made
   explicit with mod 256 / mod 65536 where the C code narrows. -/

/-- Operations performed by the send path of ncp_cpc.cpp, recorded in order.
outFrameBegin, outFrameGetLength, outFrameRead and outFrameRemove are the
Spinel out-frame buffer calls; allocBuffer is the malloc of the transfer
buffer; cpcWrite is the sl_cpc_write call with the transmitted bytes and
length; freeBuffer is the free of a transfer buffer. -/
inductive CpcEvent where
  | outFrameBegin (ok : Bool)
  | outFrameGetLength (len : Nat)
  | allocBuffer (size : Nat)
  | outFrameRead (maxLen : Nat)
  | cpcWrite (data : List Nat) (len : Nat)
  | outFrameRemove (ok : Bool)
  | freeBuffer (data : List Nat)
  deriving DecidableEq, Repr

/-- The reserved internal notification signature checked at ncp_cpc.cpp line
125: bytes 0x80 0x06 0x00 0x72 (the Spinel reset-reason notification). -/
def resetSignature : List Nat := [0x80, 0x06, 0x00, 0x72]

/-- The byte test of ncp_cpc.cpp line 125: buffer[0] == 0x80 and buffer[1] ==
0x06 and buffer[2] == 0x00 and buffer[3] == 0x72, applied to the malloc
transfer buffer. When the buffer holds fewer than four bytes the C code reads
past the allocation (undefined); the model resolves those uninitialised reads
as non-matching, so only a buffer actually carrying the four signature bytes
matches. -/
def isResetFrame (buffer : List Nat) : Bool :=
  buffer[0]? == some 0x80 && buffer[1]? == some 0x06 &&
  buffer[2]? == some 0x00 && buffer[3]? == some 0x72

/-- Shallow embedding of NcpCPC::SendToCPC (src/src/ncp/ncp_cpc.cpp lines
113-134). The Spinel transmit frame buffer is not among the given sources, so
it is modelled from the spec (section 4.1) as a FIFO list of byte frames:
OutFrameBegin selects the oldest frame and fails when the list is empty,
OutFrameGetLength returns the selected frame length (0 with no current frame),
OutFrameRead copies up to maxLen bytes from the start of the selected frame,
OutFrameRemove removes the selected frame. The source ignores the result of
OutFrameBegin (IgnoreError) and performs every later call unconditionally, and
it stores the length into a uint8_t local, hence the mod 256 narrowing. The
result is the list of operations performed, in order, and the frame buffer
state after the call. -/
def SendToCPC (fb : List (List Nat)) : List CpcEvent × List (List Nat) :=
  let beginOk := !fb.isEmpty
  let frame := fb.headD []
  let len := frame.length
  let bufferLen := len % 256
  let buffer := frame.take bufferLen
  let pre := [CpcEvent.outFrameBegin beginOk, CpcEvent.outFrameGetLength len,
    CpcEvent.allocBuffer bufferLen, CpcEvent.outFrameRead bufferLen]
  if isResetFrame buffer then
    (pre ++ [CpcEvent.outFrameRemove beginOk], fb.tail)
  else
    (pre ++ [CpcEvent.cpcWrite buffer bufferLen, CpcEvent.outFrameRemove beginOk], fb.tail)

/-- Shallow embedding of NcpCPC::HandleCPCSendDone (ncp_cpc.cpp lines 136-146):
the write-completion callback frees the transfer buffer it is handed. -/
def HandleCPCSendDone (buffer : List Nat) : CpcEvent :=
  CpcEvent.freeBuffer buffer

/-- Completion events the CPC service delivers for a list of performed
operations. Modelled from the spec (section 6): the write-completion
notification registered at open time is invoked once per completed write with
the original buffer reference; here each cpcWrite operation therefore leads to
one HandleCPCSendDone call on its buffer. -/
def completionEvents (evs : List CpcEvent) : List CpcEvent :=
  evs.filterMap fun e =>
    match e with
    | CpcEvent.cpcWrite d _ => some (HandleCPCSendDone d)
    | _ => none

/-- The sl_cpc_write calls among a list of operations, each with its bytes and
its length argument. -/
def writesOf (evs : List CpcEvent) : List (List Nat × Nat) :=
  evs.filterMap fun e =>
    match e with
    | CpcEvent.cpcWrite d l => some (d, l)
    | _ => none

def isRemoveEvent : CpcEvent → Bool
  | CpcEvent.outFrameRemove _ => true
  | _ => false

def isAllocEvent : CpcEvent → Bool
  | CpcEvent.allocBuffer _ => true
  | _ => false

def isFreeEvent : CpcEvent → Bool
  | CpcEvent.freeBuffer _ => true
  | _ => false

/-- The signature test succeeds exactly on buffers whose first four bytes are
the reserved signature. -/
theorem isResetFrame_iff (l : List Nat) :
    isResetFrame l = true ↔ l.take 4 = resetSignature := by
  match l with
  | [] => simp [isResetFrame, resetSignature]
  | [a] => simp [isResetFrame, resetSignature]
  | [a, b] => simp [isResetFrame, resetSignature]
  | [a, b, c] => simp [isResetFrame, resetSignature]
  | a :: b :: c :: d :: rest =>
    simp [isResetFrame, resetSignature, List.take]
    tauto

/-- C1 (amended): for every frame drained by SendToCPC that is shorter than
256 bytes, if its first four bytes are the reserved signature 0x80 0x06 0x00
0x72 it is never passed to sl_cpc_write, and any other such frame is passed to
sl_cpc_write with exactly its bytes and length. (Frames of 256 bytes or more
fall outside this statement because the source narrows the length to a uint8_t
local before allocating, reading and writing.) -/
theorem SendToCPC_write_filter (frame : List Nat) (rest : List (List Nat))
    (h : frame.length < 256) :
    (frame.take 4 = resetSignature →
      writesOf (SendToCPC (frame :: rest)).1 = []) ∧
    (frame.take 4 ≠ resetSignature →
      writesOf (SendToCPC (frame :: rest)).1 = [(frame, frame.length)]) := by
  have hmod : frame.length % 256 = frame.length := Nat.mod_eq_of_lt h
  have htake : frame.take (frame.length % 256) = frame := by
    rw [hmod]; exact List.take_length frame
  constructor
  · intro hsig
    have hb : isResetFrame (frame.take (frame.length % 256)) = true := by
      rw [htake, isResetFrame_iff]; exact hsig
    simp [SendToCPC, hb, writesOf]
  · intro hsig
    have hb : isResetFrame frame = false := by
      cases hx : isResetFrame frame
      · rfl
      · exact absurd ((isResetFrame_iff frame).mp hx) hsig
    simp [SendToCPC, writesOf, htake, hmod, hb]

/-- C1 witness: a concrete three byte frame is written out unchanged. -/
theorem SendToCPC_write_filter_check :
    ([1, 2, 3] : List Nat).length < 256 ∧
    writesOf (SendToCPC [[1, 2, 3]]).1 = [([1, 2, 3], 3)] :=
  ⟨by decide, (SendToCPC_write_filter [1, 2, 3] [] (by decide)).2 (by decide)⟩

set_option maxRecDepth 8192 in
/-- C1 counterexample: a 300 byte frame that does not carry the reserved
signature is not passed to sl_cpc_write with its own bytes and length; the
uint8_t narrowing of the length makes the code write only the first 44 bytes
(300 mod 256) with length 44. -/
theorem SendToCPC_truncates_long_frame :
    writesOf (SendToCPC [List.replicate 300 0]).1 ≠
      [(List.replicate 300 0, 300)] ∧
    writesOf (SendToCPC [List.replicate 300 0]).1 =
      [(List.replicate 44 0, 44)] := by
  constructor
  · decide
  · decide

/-- C2: every activation of SendToCPC on a nonempty frame buffer drains
exactly one frame: the operation sequence opens with a successful
OutFrameBegin, the allocation size, the OutFrameRead bound and any sl_cpc_write
length all equal the stored (uint8_t) frame length, OutFrameRemove is
performed exactly once and is the last operation regardless of whether the
frame was written or suppressed, and the buffer afterwards is exactly the
original one with its first frame gone, so that frame is never presented
again. -/
theorem SendToCPC_drains_one_frame (fb : List (List Nat)) (h : fb ≠ []) :
    (SendToCPC fb).1.head? = some (CpcEvent.outFrameBegin true) ∧
    (SendToCPC fb).1.take 4 = [CpcEvent.outFrameBegin true,
      CpcEvent.outFrameGetLength (fb.headD []).length,
      CpcEvent.allocBuffer ((fb.headD []).length % 256),
      CpcEvent.outFrameRead ((fb.headD []).length % 256)] ∧
    (SendToCPC fb).1.filter isRemoveEvent = [CpcEvent.outFrameRemove true] ∧
    (SendToCPC fb).1.getLast? = some (CpcEvent.outFrameRemove true) ∧
    (SendToCPC fb).2 = fb.tail := by
  match fb with
  | [] => exact absurd rfl h
  | frame :: rest =>
    by_cases hb : isResetFrame (frame.take (frame.length % 256)) = true
    · simp [SendToCPC, hb, isRemoveEvent, List.filter, List.getLast?]
    · simp only [Bool.not_eq_true] at hb
      simp [SendToCPC, hb, isRemoveEvent, List.filter, List.getLast?]

/-- C2 witness: a concrete activation on a two frame buffer. -/
theorem SendToCPC_drains_one_frame_check :
    ([[1, 2, 3], [4]] : List (List Nat)) ≠ [] ∧
    (SendToCPC [[1, 2, 3], [4]]).1.filter isRemoveEvent =
      [CpcEvent.outFrameRemove true] ∧
    (SendToCPC [[1, 2, 3], [4]]).2 = [[4]] :=
  ⟨by decide,
    (SendToCPC_drains_one_frame [[1, 2, 3], [4]] (by decide)).2.2.1,
    (SendToCPC_drains_one_frame [[1, 2, 3], [4]] (by decide)).2.2.2.2⟩

/-- C3 counterexample: when the frame buffer is empty, OutFrameBegin fails
(IgnoreError discards the failure) and the code nevertheless invokes
OutFrameGetLength, OutFrameRead and OutFrameRemove (and even sl_cpc_write with
length 0), contradicting the claim that none of these operations is invoked
after a failed OutFrameBegin. -/
theorem SendToCPC_empty_buffer_unguarded :
    (SendToCPC []).1.head? = some (CpcEvent.outFrameBegin false) ∧
    CpcEvent.outFrameGetLength 0 ∈ (SendToCPC []).1 ∧
    CpcEvent.outFrameRead 0 ∈ (SendToCPC []).1 ∧
    CpcEvent.outFrameRemove false ∈ (SendToCPC []).1 := by
  refine ⟨by decide, by decide, by decide, by decide⟩

/-- C3 (amended): SendToCPC invokes OutFrameGetLength, OutFrameRead and
OutFrameRemove unconditionally in every activation, ignoring the result of the
initial OutFrameBegin call; OutFrameBegin succeeds exactly when the buffer is
nonempty, so only in that case do the three calls operate on a current
frame. -/
theorem SendToCPC_ops_unconditional (fb : List (List Nat)) :
    (SendToCPC fb).1.head? = some (CpcEvent.outFrameBegin (!fb.isEmpty)) ∧
    (∃ n, CpcEvent.outFrameGetLength n ∈ (SendToCPC fb).1) ∧
    (∃ n, CpcEvent.outFrameRead n ∈ (SendToCPC fb).1) ∧
    CpcEvent.outFrameRemove (!fb.isEmpty) ∈ (SendToCPC fb).1 := by
  match fb with
  | [] => exact ⟨by decide, ⟨0, by decide⟩, ⟨0, by decide⟩, by decide⟩
  | frame :: rest =>
    by_cases hb : isResetFrame (frame.take (frame.length % 256)) = true
    · refine ⟨?_, ⟨frame.length, ?_⟩, ⟨frame.length % 256, ?_⟩, ?_⟩ <;>
        simp [SendToCPC, hb]
    · simp only [Bool.not_eq_true] at hb
      refine ⟨?_, ⟨frame.length, ?_⟩, ⟨frame.length % 256, ?_⟩, ?_⟩ <;>
        simp [SendToCPC, hb]

/-- C4: a frame carrying the reserved signature takes the suppressed branch of
SendToCPC, which allocates the transfer buffer, performs no sl_cpc_write (so
HandleCPCSendDone is never invoked for it) and returns without freeing: the
activation together with all of its completion events contains one allocation
and no free, i.e. the transfer buffer is leaked. -/
theorem SendToCPC_suppressed_frame_leaks :
    (((SendToCPC [[0x80, 0x06, 0x00, 0x72]]).1.filter isAllocEvent).length = 1) ∧
    writesOf (SendToCPC [[0x80, 0x06, 0x00, 0x72]]).1 = [] ∧
    ((((SendToCPC [[0x80, 0x06, 0x00, 0x72]]).1 ++
        completionEvents (SendToCPC [[0x80, 0x06, 0x00, 0x72]]).1).filter
          isFreeEvent).length = 0) := by
  refine ⟨by decide, by decide, by decide⟩

/-- Events on the receive path of ncp_cpc.cpp: handleReceive is the
synchronous super_t::HandleReceive call with the received bytes and the length
reported by sl_cpc_read; freeRxBuffer is the sl_cpc_free_rx_buffer call, a
receive side release distinct from the transmit buffer free. -/
inductive RxEvent where
  | handleReceive (data : List Nat) (len : Nat)
  | freeRxBuffer (data : List Nat)
  deriving DecidableEq, Repr

def isReceiveEvent : RxEvent → Bool
  | RxEvent.handleReceive _ _ => true
  | _ => false

/-- Shallow embedding of NcpCPC::HandleCPCReceiveDone (ncp_cpc.cpp lines
158-182). sl_cpc_read is the external CPC service; its outcome is the
parameter: none models any status other than SL_STATUS_OK (in particular no
data pending, since the read is issued with SL_CPC_FLAG_NO_BLOCK), and some
data models SL_STATUS_OK together with the delivered buffer, whose reported
dataLength is the byte count of that buffer. -/
def HandleCPCReceiveDone (readResult : Option (List Nat)) : List RxEvent :=
  match readResult with
  | none => []
  | some data =>
    [RxEvent.handleReceive data data.length, RxEvent.freeRxBuffer data]

/-- C5: a poll of HandleCPCReceiveDone that finds no data performs nothing (no
receive handler call, no buffer release, and no-data is not treated as an
error), while a poll that yields a complete frame invokes the receive handler
exactly once with exactly the received bytes and their length, and afterwards
(as the last action) releases the receive buffer through the receive side
free call. -/
theorem HandleCPCReceiveDone_poll (d : List Nat) :
    HandleCPCReceiveDone none = [] ∧
    (HandleCPCReceiveDone (some d)).filter isReceiveEvent =
      [RxEvent.handleReceive d d.length] ∧
    (HandleCPCReceiveDone (some d)).getLast? = some (RxEvent.freeRxBuffer d) := by
  refine ⟨rfl, ?_, ?_⟩ <;> simp [HandleCPCReceiveDone, isReceiveEvent]

/-- The otError result codes of the embedded functions, named as in the C
sources. -/
inductive OtError where
  | OT_ERROR_NONE
  | OT_ERROR_NO_BUFS
  | OT_ERROR_NO_ADDRESS
  | OT_ERROR_FAILED
  deriving DecidableEq, Repr

/-- CpcInterface::kMaxWaitTime, the maximum wait in milliseconds for the
socket to become writable (src/src/posix/platform/cpc_interface.hpp line
191). -/
def kMaxWaitTime : Nat := 2000

/-- Modelled from the spec: the body of CpcInterface::WaitForWritable is not
among the given sources (src/src/posix/platform/cpc_interface.hpp only
declares it, lines 163-171). Following that declaration and spec sections 4.3
and 5: writable t tells whether the socket is writable t milliseconds after
the call; the wait succeeds exactly when the socket becomes writable within
kMaxWaitTime, and otherwise fails after that bound. -/
def WaitForWritable (writable : Nat → Bool) : OtError :=
  if (List.range (kMaxWaitTime + 1)).any writable then OtError.OT_ERROR_NONE
  else OtError.OT_ERROR_FAILED

/-- Modelled from the spec: the body of CpcInterface::SendFrame is not among
the given sources (cpc_interface.hpp only declares it, lines 94-108).
Following that declaration and spec section 4.3: bufferOk is false when
encoding the frame into the transmit buffer fails structurally, which yields
OT_ERROR_NO_BUFS; otherwise the call waits, up to kMaxWaitTime, for the socket
to become writable, returning OT_ERROR_FAILED when it never does within the
bound and OT_ERROR_NONE after a successful write. -/
def SendFrame (bufferOk : Bool) (writable : Nat → Bool) : OtError :=
  if bufferOk = false then OtError.OT_ERROR_NO_BUFS
  else WaitForWritable writable

/-- C9: SendFrame returns OT_ERROR_NO_BUFS exactly when buffering fails
structurally, OT_ERROR_FAILED exactly when the socket is writable at no point
within the kMaxWaitTime bound, OT_ERROR_NONE exactly when it becomes writable
within the bound, and its result depends only on the writability of the first
kMaxWaitTime milliseconds, so a writable condition held false past the bound
yields OT_ERROR_FAILED rather than an indefinite block. -/
theorem SendFrame_bounded_wait (bufferOk : Bool) (writable : Nat → Bool) :
    (SendFrame bufferOk writable = OtError.OT_ERROR_NO_BUFS ↔
      bufferOk = false) ∧
    (SendFrame bufferOk writable = OtError.OT_ERROR_FAILED ↔
      bufferOk = true ∧ ∀ t, t ≤ kMaxWaitTime → writable t = false) ∧
    (SendFrame bufferOk writable = OtError.OT_ERROR_NONE ↔
      bufferOk = true ∧ ∃ t, t ≤ kMaxWaitTime ∧ writable t = true) ∧
    (∀ writable2 : Nat → Bool,
      (∀ t, t ≤ kMaxWaitTime → writable t = writable2 t) →
      SendFrame bufferOk writable = SendFrame bufferOk writable2) := by
  have hany : ∀ w : Nat → Bool,
      (List.range (kMaxWaitTime + 1)).any w = true ↔
        ∃ t, t ≤ kMaxWaitTime ∧ w t = true := by
    intro w
    rw [List.any_eq_true]
    constructor
    · rintro ⟨t, ht, hw⟩
      exact ⟨t, Nat.lt_succ_iff.mp (List.mem_range.mp ht), hw⟩
    · rintro ⟨t, ht, hw⟩
      exact ⟨t, List.mem_range.mpr (Nat.lt_succ_of_le ht), hw⟩
  cases bufferOk
  · refine ⟨by simp [SendFrame], by simp [SendFrame], by simp [SendFrame], ?_⟩
    intro w2 hw
    simp [SendFrame]
  · refine ⟨?_, ?_, ?_, ?_⟩
    · simp [SendFrame, WaitForWritable]
      split <;> simp
    · simp only [SendFrame, Bool.true_eq_false, if_false, WaitForWritable]
      constructor
      · intro hr
        refine ⟨by trivial, ?_⟩
        intro t ht
        by_contra hwt
        have hwt2 : writable t = true := by
          cases hx : writable t
          · exact absurd hx hwt
          · rfl
        have : (List.range (kMaxWaitTime + 1)).any writable = true :=
          (hany writable).mpr ⟨t, ht, hwt2⟩
        rw [if_pos this] at hr
        exact absurd hr (by decide)
      · rintro ⟨-, hall⟩
        have hnone : (List.range (kMaxWaitTime + 1)).any writable = false := by
          cases hx : (List.range (kMaxWaitTime + 1)).any writable
          · rfl
          · obtain ⟨t, ht, hw⟩ := (hany writable).mp hx
            rw [hall t ht] at hw
            exact absurd hw (by decide)
        simp [hnone]
    · simp only [SendFrame, Bool.true_eq_false, if_false, WaitForWritable]
      constructor
      · intro hr
        refine ⟨by trivial, ?_⟩
        cases hx : (List.range (kMaxWaitTime + 1)).any writable
        · rw [if_neg (by simp [hx])] at hr
          exact absurd hr (by decide)
        · exact (hany writable).mp hx
      · rintro ⟨-, hex⟩
        rw [if_pos ((hany writable).mpr hex)]
    · intro w2 hw
      simp only [SendFrame, Bool.true_eq_false, if_false, WaitForWritable]
      have : (List.range (kMaxWaitTime + 1)).any writable =
          (List.range (kMaxWaitTime + 1)).any w2 := by
        cases hx : (List.range (kMaxWaitTime + 1)).any w2
        · cases hy : (List.range (kMaxWaitTime + 1)).any writable
          · rfl
          · obtain ⟨t, ht, hwt⟩ := (hany writable).mp hy
            have : w2 t = true := by rw [← hw t ht]; exact hwt
            rw [(hany w2).mpr ⟨t, ht, this⟩] at hx
            exact absurd hx (by decide)
        · obtain ⟨t, ht, hwt⟩ := (hany w2).mp hx
          have : writable t = true := by rw [hw t ht]; exact hwt
          exact (hany writable).mpr ⟨t, ht, this⟩
      rw [this]

/-- C9 witness: with sound buffering and a socket that first becomes writable
2100 milliseconds after the call, past the 2000 millisecond bound, SendFrame
returns OT_ERROR_FAILED. -/
theorem SendFrame_bounded_wait_check :
    SendFrame true (fun t => decide (t = 2100)) = OtError.OT_ERROR_FAILED := by
  have h := (SendFrame_bounded_wait true (fun t => decide (t = 2100))).2.1
  refine h.mpr ⟨rfl, ?_⟩
  intro t ht
  have ht2 : t ≤ 2000 := ht
  simp only [decide_eq_false_iff_not]
  omega

/-- One slot of the software source match tables of
soft_source_match_table.c: a 16 bit checksum and an allocation flag. -/
structure SrcMatchEntry where
  checksum : Nat
  allocated : Bool
  deriving DecidableEq, Repr

/-- The file scope state of soft_source_match_table.c. sPanId is declared in
the source with a doubled dimension (line 46) while every use reads or writes
sPanId[iid] as a single uint16 value; it is modelled with the one dimensional
shape all of its uses require (the declaration slip is reported with the
instance scoping finding). srcMatchExtEntry is the per instance extended
address table, srcMatchExtEntry[iid][entry]. The zero initialised C arrays
correspond to rows of entries with checksum 0 and allocated false. -/
structure SrcMatchState where
  sPanId : List Nat
  srcMatchExtEntry : List (List SrcMatchEntry)
  deriving DecidableEq, Repr

/-- utilsSoftSrcMatchSetPanId (soft_source_match_table.c lines 48-51): stores
the PAN id of the given instance. -/
def utilsSoftSrcMatchSetPanId (st : SrcMatchState) (iid : Nat) (aPanId : Nat) :
    SrcMatchState :=
  { st with sPanId := st.sPanId.set iid (aPanId % 65536) }

/-- The for loop shape shared by the table scans of
soft_source_match_table.c: the index of the first entry satisfying p, if
any. -/
def findEntryLoop (p : SrcMatchEntry → Bool) : List SrcMatchEntry → Option Nat
  | [] => none
  | e :: rest =>
    if p e then some 0 else Option.map (fun n => n + 1) (findEntryLoop p rest)

/-- The extended address checksum computed at soft_source_match_table.c lines
171-176 and 208-213: starting from the instance PAN id, the four 16 bit words
m8[2k] | (m8[2k+1] << 8) of the address are accumulated into a uint16, each
addition wrapping modulo 65536. Address bytes are uint8 values, hence the mod
256 on each byte read. -/
def extChecksum (pan : Nat) (aExtAddress : List Nat) : Nat :=
  let b := fun i => aExtAddress.getD i 0 % 256
  let w := fun i => b i + 256 * b (i + 1)
  ((((pan % 65536 + w 0) % 65536 + w 2) % 65536 + w 4) % 65536 + w 6) % 65536

/-- utilsSoftSrcMatchExtFindEntry (soft_source_match_table.c lines 168-188):
the first entry of instance iid whose stored checksum equals the checksum of
the address under the current PAN id of iid and which is allocated; none
models the -1 miss result. -/
def utilsSoftSrcMatchExtFindEntry (st : SrcMatchState) (iid : Nat)
    (aExtAddress : List Nat) : Option Nat :=
  findEntryLoop
    (fun e =>
      extChecksum (st.sPanId.getD iid 0) aExtAddress == e.checksum &&
      e.allocated)
    (st.srcMatchExtEntry.getD iid [])

/-- findSrcMatchExtAvailEntry (soft_source_match_table.c lines 190-204): the
first unallocated entry of instance iid, none models the -1 miss result. -/
def findSrcMatchExtAvailEntry (st : SrcMatchState) (iid : Nat) : Option Nat :=
  findEntryLoop (fun e => !e.allocated) (st.srcMatchExtEntry.getD iid [])

/-- addToSrcMatchExtIndirect (soft_source_match_table.c lines 206-217): store
the address checksum in the given entry of instance iid and mark it
allocated. -/
def addToSrcMatchExtIndirect (st : SrcMatchState) (iid : Nat) (entry : Nat)
    (aExtAddress : List Nat) : SrcMatchState :=
  let row := st.srcMatchExtEntry.getD iid []
  { st with
    srcMatchExtEntry := st.srcMatchExtEntry.set iid
      (row.set entry
        ⟨extChecksum (st.sPanId.getD iid 0) aExtAddress, true⟩) }

/-- removeFromSrcMatchExtIndirect (soft_source_match_table.c lines 219-223):
mark the given entry of instance iid unallocated and zero its checksum. -/
def removeFromSrcMatchExtIndirect (st : SrcMatchState) (iid : Nat)
    (entry : Nat) : SrcMatchState :=
  let row := st.srcMatchExtEntry.getD iid []
  { st with
    srcMatchExtEntry := st.srcMatchExtEntry.set iid (row.set entry ⟨0, false⟩) }

/-- otPlatRadioAddSrcMatchExtEntry (soft_source_match_table.c lines 225-241):
find a free entry of the instance; with none left return OT_ERROR_NO_BUFS,
otherwise store the checksum there and return OT_ERROR_NONE. -/
def otPlatRadioAddSrcMatchExtEntry (st : SrcMatchState) (iid : Nat)
    (aExtAddress : List Nat) : OtError × SrcMatchState :=
  match findSrcMatchExtAvailEntry st iid with
  | none => (OtError.OT_ERROR_NO_BUFS, st)
  | some entry =>
    (OtError.OT_ERROR_NONE, addToSrcMatchExtIndirect st iid entry aExtAddress)

/-- otPlatRadioClearSrcMatchExtEntry (soft_source_match_table.c lines
243-259): look the address up under the current PAN id of the instance; on a
miss return OT_ERROR_NO_ADDRESS, otherwise deallocate the found entry and
return OT_ERROR_NONE. -/
def otPlatRadioClearSrcMatchExtEntry (st : SrcMatchState) (iid : Nat)
    (aExtAddress : List Nat) : OtError × SrcMatchState :=
  match utilsSoftSrcMatchExtFindEntry st iid aExtAddress with
  | none => (OtError.OT_ERROR_NO_ADDRESS, st)
  | some entry =>
    (OtError.OT_ERROR_NONE, removeFromSrcMatchExtIndirect st iid entry)

/-- otPlatRadioClearSrcMatchExtEntries (soft_source_match_table.c lines
261-268): memset the whole table row of the instance to zero. -/
def otPlatRadioClearSrcMatchExtEntries (st : SrcMatchState) (iid : Nat) :
    SrcMatchState :=
  let row := st.srcMatchExtEntry.getD iid []
  { st with
    srcMatchExtEntry := st.srcMatchExtEntry.set iid
      (List.replicate row.length ⟨0, false⟩) }

/-- The table scan misses exactly when no entry satisfies the test. -/
theorem findEntryLoop_eq_none_iff (p : SrcMatchEntry → Bool)
    (l : List SrcMatchEntry) :
    findEntryLoop p l = none ↔ ∀ e ∈ l, p e = false := by
  induction l with
  | nil => simp [findEntryLoop]
  | cons e rest ih =>
    by_cases hp : p e = true
    · simp [findEntryLoop, hp]
    · simp only [Bool.not_eq_true] at hp
      simp [findEntryLoop, hp, ih]

/-- A hit of the table scan is an index into the list, its entry satisfies
the test, and no earlier entry does. -/
theorem findEntryLoop_eq_some (p : SrcMatchEntry → Bool)
    (l : List SrcMatchEntry) (k : Nat) :
    findEntryLoop p l = some k →
    k < l.length ∧ p (l.getD k ⟨0, false⟩) = true ∧
      ∀ j, j < k → p (l.getD j ⟨0, false⟩) = false := by
  induction l generalizing k with
  | nil => intro h; exact absurd h (by simp [findEntryLoop])
  | cons e rest ih =>
    intro h
    by_cases hp : p e = true
    · simp only [findEntryLoop, hp, if_true, Option.some.injEq] at h
      subst h
      exact ⟨Nat.succ_pos _, hp, fun j hj => absurd hj (Nat.not_lt_zero j)⟩
    · simp only [Bool.not_eq_true] at hp
      simp only [findEntryLoop, hp, Bool.false_eq_true, if_false] at h
      cases hx : findEntryLoop p rest with
      | none => rw [hx] at h; exact absurd h (by simp)
      | some m =>
        rw [hx] at h
        have h2 : m + 1 = k := Option.some.inj h
        subst h2
        obtain ⟨hk, hpk, hbefore⟩ := ih m hx
        refine ⟨by simp only [List.length_cons]; omega, by simpa using hpk, ?_⟩
        intro j hj
        match j with
        | 0 => simpa using hp
        | j + 1 =>
          have := hbefore j (Nat.lt_of_succ_lt_succ hj)
          simpa using this

/-- An in range getD read of a table row is one of its elements. -/
theorem getD_mem_of_lt (l : List SrcMatchEntry) (k : Nat) (h : k < l.length) :
    l.getD k ⟨0, false⟩ ∈ l := by
  have hx : l[k]? = some l[k] := List.getElem?_eq_getElem h
  rw [List.getD_eq_getElem?_getD, hx, Option.getD_some]
  exact List.getElem_mem h

/-- C7: for every state, instance id and extended address,
otPlatRadioAddSrcMatchExtEntry returns OT_ERROR_NO_BUFS exactly when every
capacity slot of that instance table is already allocated, and then leaves the
state unchanged; otherwise it returns OT_ERROR_NONE and marks exactly one
previously free slot of that instance allocated with the address checksum
(every other slot and every other instance row kept as is, since only index k
of the iid row is rewritten); no other result is possible. -/
theorem otPlatRadioAddSrcMatchExtEntry_spec (st : SrcMatchState) (iid : Nat)
    (aExtAddress : List Nat) :
    ((otPlatRadioAddSrcMatchExtEntry st iid aExtAddress).1 =
        OtError.OT_ERROR_NO_BUFS ↔
      ∀ e ∈ st.srcMatchExtEntry.getD iid [], e.allocated = true) ∧
    ((otPlatRadioAddSrcMatchExtEntry st iid aExtAddress).1 =
        OtError.OT_ERROR_NO_BUFS →
      (otPlatRadioAddSrcMatchExtEntry st iid aExtAddress).2 = st) ∧
    ((otPlatRadioAddSrcMatchExtEntry st iid aExtAddress).1 =
        OtError.OT_ERROR_NONE →
      ∃ k, k < (st.srcMatchExtEntry.getD iid []).length ∧
        ((st.srcMatchExtEntry.getD iid []).getD k ⟨0, false⟩).allocated =
          false ∧
        (otPlatRadioAddSrcMatchExtEntry st iid
            aExtAddress).2.srcMatchExtEntry =
          st.srcMatchExtEntry.set iid
            ((st.srcMatchExtEntry.getD iid []).set k
              ⟨extChecksum (st.sPanId.getD iid 0) aExtAddress, true⟩) ∧
        (otPlatRadioAddSrcMatchExtEntry st iid aExtAddress).2.sPanId =
          st.sPanId) ∧
    ((otPlatRadioAddSrcMatchExtEntry st iid aExtAddress).1 =
        OtError.OT_ERROR_NONE ∨
      (otPlatRadioAddSrcMatchExtEntry st iid aExtAddress).1 =
        OtError.OT_ERROR_NO_BUFS) := by
  cases hx : findSrcMatchExtAvailEntry st iid with
  | none =>
    have hres : otPlatRadioAddSrcMatchExtEntry st iid aExtAddress =
        (OtError.OT_ERROR_NO_BUFS, st) := by
      simp [otPlatRadioAddSrcMatchExtEntry, hx]
    have hall : ∀ e ∈ st.srcMatchExtEntry.getD iid [], e.allocated = true := by
      have h0 := (findEntryLoop_eq_none_iff _ _).mp hx
      intro e he
      simpa using h0 e he
    rw [hres]
    exact ⟨⟨fun _ => hall, fun _ => rfl⟩, fun _ => rfl,
      fun hc => absurd hc (by simp), Or.inr rfl⟩
  | some k =>
    have hres : otPlatRadioAddSrcMatchExtEntry st iid aExtAddress =
        (OtError.OT_ERROR_NONE,
          addToSrcMatchExtIndirect st iid k aExtAddress) := by
      simp [otPlatRadioAddSrcMatchExtEntry, hx]
    obtain ⟨hk, hpk, -⟩ := findEntryLoop_eq_some _ _ k hx
    have hfree :
        ((st.srcMatchExtEntry.getD iid []).getD k ⟨0, false⟩).allocated =
          false := by
      simpa using hpk
    rw [hres]
    refine ⟨⟨fun hc => absurd hc (by simp), ?_⟩,
      fun hc => absurd hc (by simp),
      fun _ => ⟨k, hk, hfree, ?_, ?_⟩, Or.inl rfl⟩
    · intro hall
      have h2 := hall _ (getD_mem_of_lt _ k hk)
      rw [h2] at hfree
      exact absurd hfree (by decide)
    · simp [addToSrcMatchExtIndirect]
    · simp [addToSrcMatchExtIndirect]

/-- C7 witness: adding to a full single slot table yields OT_ERROR_NO_BUFS
and an unchanged state. -/
theorem otPlatRadioAddSrcMatchExtEntry_spec_check :
    (otPlatRadioAddSrcMatchExtEntry ⟨[0], [[⟨7, true⟩]]⟩ 0
        [1, 2, 3, 4, 5, 6, 7, 8]).1 = OtError.OT_ERROR_NO_BUFS ∧
    (otPlatRadioAddSrcMatchExtEntry ⟨[0], [[⟨7, true⟩]]⟩ 0
        [1, 2, 3, 4, 5, 6, 7, 8]).2 = ⟨[0], [[⟨7, true⟩]]⟩ :=
  have h := otPlatRadioAddSrcMatchExtEntry_spec ⟨[0], [[⟨7, true⟩]]⟩ 0
    [1, 2, 3, 4, 5, 6, 7, 8]
  have h1 := h.1.mpr (by decide)
  ⟨h1, h.2.1 h1⟩

/-- C8: for every state, instance id and extended address,
otPlatRadioClearSrcMatchExtEntry returns OT_ERROR_NO_ADDRESS exactly when no
allocated entry of that instance carries the checksum of the address under
the instance current PAN id, and then leaves the state unchanged; otherwise
it returns OT_ERROR_NONE and deallocates exactly the first such entry,
leaving every other slot and the PAN ids unchanged; no other result is
possible. -/
theorem otPlatRadioClearSrcMatchExtEntry_spec (st : SrcMatchState) (iid : Nat)
    (aExtAddress : List Nat) :
    ((otPlatRadioClearSrcMatchExtEntry st iid aExtAddress).1 =
        OtError.OT_ERROR_NO_ADDRESS ↔
      ∀ e ∈ st.srcMatchExtEntry.getD iid [],
        ¬(e.checksum = extChecksum (st.sPanId.getD iid 0) aExtAddress ∧
          e.allocated = true)) ∧
    ((otPlatRadioClearSrcMatchExtEntry st iid aExtAddress).1 =
        OtError.OT_ERROR_NO_ADDRESS →
      (otPlatRadioClearSrcMatchExtEntry st iid aExtAddress).2 = st) ∧
    ((otPlatRadioClearSrcMatchExtEntry st iid aExtAddress).1 =
        OtError.OT_ERROR_NONE →
      ∃ k, k < (st.srcMatchExtEntry.getD iid []).length ∧
        ((st.srcMatchExtEntry.getD iid []).getD k ⟨0, false⟩).checksum =
          extChecksum (st.sPanId.getD iid 0) aExtAddress ∧
        ((st.srcMatchExtEntry.getD iid []).getD k ⟨0, false⟩).allocated =
          true ∧
        (otPlatRadioClearSrcMatchExtEntry st iid
            aExtAddress).2.srcMatchExtEntry =
          st.srcMatchExtEntry.set iid
            ((st.srcMatchExtEntry.getD iid []).set k ⟨0, false⟩) ∧
        (otPlatRadioClearSrcMatchExtEntry st iid aExtAddress).2.sPanId =
          st.sPanId) ∧
    ((otPlatRadioClearSrcMatchExtEntry st iid aExtAddress).1 =
        OtError.OT_ERROR_NONE ∨
      (otPlatRadioClearSrcMatchExtEntry st iid aExtAddress).1 =
        OtError.OT_ERROR_NO_ADDRESS) := by
  cases hx : utilsSoftSrcMatchExtFindEntry st iid aExtAddress with
  | none =>
    have hres : otPlatRadioClearSrcMatchExtEntry st iid aExtAddress =
        (OtError.OT_ERROR_NO_ADDRESS, st) := by
      simp [otPlatRadioClearSrcMatchExtEntry, hx]
    have hall : ∀ e ∈ st.srcMatchExtEntry.getD iid [],
        ¬(e.checksum = extChecksum (st.sPanId.getD iid 0) aExtAddress ∧
          e.allocated = true) := by
      have h0 := (findEntryLoop_eq_none_iff _ _).mp hx
      intro e he
      rintro ⟨h1, h2⟩
      have := h0 e he
      rw [h1, h2] at this
      simp at this
    rw [hres]
    exact ⟨⟨fun _ => hall, fun _ => rfl⟩, fun _ => rfl,
      fun hc => absurd hc (by simp), Or.inr rfl⟩
  | some k =>
    have hres : otPlatRadioClearSrcMatchExtEntry st iid aExtAddress =
        (OtError.OT_ERROR_NONE, removeFromSrcMatchExtIndirect st iid k) := by
      simp [otPlatRadioClearSrcMatchExtEntry, hx]
    obtain ⟨hk, hpk, -⟩ := findEntryLoop_eq_some _ _ k hx
    have hcs :
        ((st.srcMatchExtEntry.getD iid []).getD k ⟨0, false⟩).checksum =
          extChecksum (st.sPanId.getD iid 0) aExtAddress := by
      have h1 := (Bool.and_eq_true _ _).mp hpk
      exact (eq_of_beq h1.1).symm
    have hal :
        ((st.srcMatchExtEntry.getD iid []).getD k ⟨0, false⟩).allocated =
          true := by
      have h1 := (Bool.and_eq_true _ _).mp hpk
      exact h1.2
    rw [hres]
    refine ⟨⟨fun hc => absurd hc (by simp), ?_⟩,
      fun hc => absurd hc (by simp),
      fun _ => ⟨k, hk, hcs, hal, ?_, ?_⟩, Or.inl rfl⟩
    · intro hall
      exact absurd ⟨hcs, hal⟩ (hall _ (getD_mem_of_lt _ k hk))
    · simp [removeFromSrcMatchExtIndirect]
    · simp [removeFromSrcMatchExtIndirect]

/-- C8 witness: clearing an address that was never added yields
OT_ERROR_NO_ADDRESS and an unchanged state. -/
theorem otPlatRadioClearSrcMatchExtEntry_spec_check :
    (otPlatRadioClearSrcMatchExtEntry ⟨[0], [[⟨0, false⟩]]⟩ 0
        [1, 2, 3, 4, 5, 6, 7, 8]).1 = OtError.OT_ERROR_NO_ADDRESS ∧
    (otPlatRadioClearSrcMatchExtEntry ⟨[0], [[⟨0, false⟩]]⟩ 0
        [1, 2, 3, 4, 5, 6, 7, 8]).2 = ⟨[0], [[⟨0, false⟩]]⟩ :=
  have h := otPlatRadioClearSrcMatchExtEntry_spec ⟨[0], [[⟨0, false⟩]]⟩ 0
    [1, 2, 3, 4, 5, 6, 7, 8]
  have h1 := h.1.mpr (by decide)
  ⟨h1, h.2.1 h1⟩

/-- C10: source match entries are identified only by the 16 bit checksum of
address plus PAN id, wrapping modulo 65536, not by the address itself. The
distinct extended addresses A = 01 00 00 00 00 00 00 00 and B = 00 00 01 00
00 00 00 00 have equal checksum under PAN id 5; after adding A succeeds
(storing checksum 6 in slot 0), clearing with B succeeds and removes exactly
the entry added for A. Further, after the instance PAN id changes from 5 to
9, clearing with the originally added address A misses with
OT_ERROR_NO_ADDRESS and leaves the table unchanged. The wrap around of the
checksum arithmetic is exhibited at PAN id 65535. -/
theorem srcMatchExt_checksum_identification :
    ([1, 0, 0, 0, 0, 0, 0, 0] : List Nat) ≠ [0, 0, 1, 0, 0, 0, 0, 0] ∧
    extChecksum 5 [1, 0, 0, 0, 0, 0, 0, 0] =
      extChecksum 5 [0, 0, 1, 0, 0, 0, 0, 0] ∧
    extChecksum 65535 [2, 0, 0, 0, 0, 0, 0, 0] = 1 ∧
    (otPlatRadioAddSrcMatchExtEntry ⟨[5], [[⟨0, false⟩, ⟨0, false⟩]]⟩ 0
        [1, 0, 0, 0, 0, 0, 0, 0]).1 = OtError.OT_ERROR_NONE ∧
    (otPlatRadioAddSrcMatchExtEntry ⟨[5], [[⟨0, false⟩, ⟨0, false⟩]]⟩ 0
        [1, 0, 0, 0, 0, 0, 0, 0]).2 = ⟨[5], [[⟨6, true⟩, ⟨0, false⟩]]⟩ ∧
    (otPlatRadioClearSrcMatchExtEntry ⟨[5], [[⟨6, true⟩, ⟨0, false⟩]]⟩ 0
        [0, 0, 1, 0, 0, 0, 0, 0]).1 = OtError.OT_ERROR_NONE ∧
    (otPlatRadioClearSrcMatchExtEntry ⟨[5], [[⟨6, true⟩, ⟨0, false⟩]]⟩ 0
        [0, 0, 1, 0, 0, 0, 0, 0]).2 = ⟨[5], [[⟨0, false⟩, ⟨0, false⟩]]⟩ ∧
    utilsSoftSrcMatchSetPanId ⟨[5], [[⟨6, true⟩, ⟨0, false⟩]]⟩ 0 9 =
      ⟨[9], [[⟨6, true⟩, ⟨0, false⟩]]⟩ ∧
    (otPlatRadioClearSrcMatchExtEntry ⟨[9], [[⟨6, true⟩, ⟨0, false⟩]]⟩ 0
        [1, 0, 0, 0, 0, 0, 0, 0]).1 = OtError.OT_ERROR_NO_ADDRESS ∧
    (otPlatRadioClearSrcMatchExtEntry ⟨[9], [[⟨6, true⟩, ⟨0, false⟩]]⟩ 0
        [1, 0, 0, 0, 0, 0, 0, 0]).2 = ⟨[9], [[⟨6, true⟩, ⟨0, false⟩]]⟩ := by
  decide
